import Mathlib

/-!
# MyShelf — verification of the specified core

Shallow embedding of the MyShelf personal-library tracker's core logic:
the ISBN-13 validator, the metadata-resolution pipeline of the `/api/book`
serverless handler, the barcode scan debouncer, the library store
operations, the JSON/CSV export adapters and the `/api/library` server
handler.  Each definition is translated from the TypeScript source file it
names; theorems at the end settle the specification claims.
-/

set_option maxRecDepth 4000

namespace MyShelf

/-! ## ISBN validator (`src/utils/isbn.ts`, `isValidISBN`) -/

/-- Numeric value of a digit character (JS `Number(c)` on a digit char). -/
def digitVal (c : Char) : Nat := c.toNat - '0'.toNat

/-- The weighted sum loop of `isValidISBN`:
`for (let i = 0; i < 12; i++) sum += digits[i] * (i % 2 === 0 ? 1 : 3);`. -/
def isbnWeightedSum (ds : List Nat) : Nat :=
  (List.range 12).foldl (fun acc i => acc + ds.getD i 0 * (if i % 2 = 0 then 1 else 3)) 0

/-- `isValidISBN` from `src/utils/isbn.ts`: rejects unless the string is 13
digit characters starting with "978" or "979"; then checks that the last
digit equals `(10 - (sum % 10)) % 10` for the alternating 1/3-weighted sum
of the first 12 digits. -/
def isValidISBN (s : String) : Bool :=
  if ¬ (s.data.length = 13 ∧ s.data.all Char.isDigit = true) then false
  else if ¬ (s.data.take 3 = ['9', '7', '8'] ∨ s.data.take 3 = ['9', '7', '9']) then false
  else
    decide ((s.data.map digitVal).getD 12 0 =
      (10 - isbnWeightedSum (s.data.map digitVal) % 10) % 10)

lemma getD_map_digitVal (l : List Char) (i : Nat) :
    (l.map digitVal).getD i 0 = digitVal (l.getD i ' ') := by
  induction l generalizing i with
  | nil =>
    simp [List.getD]
    rfl
  | cons a t ih =>
    cases i with
    | zero => simp [List.getD]
    | succ n =>
      simpa [List.getD] using ih n

lemma isbnWeightedSum_eq (ds : List Nat) :
    isbnWeightedSum ds =
      ∑ i in Finset.range 12, ds.getD i 0 * (if i % 2 = 0 then 1 else 3) := by
  simp [isbnWeightedSum, Finset.sum_range_succ, List.range_succ]

/-- C1: for every string `s`, `isValidISBN s` returns true iff `s` is exactly
13 characters, all digits, starts with "978" or "979", and its 13th digit
equals `(10 - (weighted sum of the first 12 digits mod 10)) mod 10` with
weights 1 at even and 3 at odd 0-based positions; in particular
"9780140449136" is valid and "9780140449137" is not. -/
theorem isValidISBN_spec :
    (∀ s : String, isValidISBN s = true ↔
      (s.data.length = 13 ∧ (∀ c ∈ s.data, c.isDigit = true) ∧
        (s.data.take 3 = ['9', '7', '8'] ∨ s.data.take 3 = ['9', '7', '9']) ∧
        digitVal (s.data.getD 12 ' ') =
          (10 - (∑ i in Finset.range 12,
              digitVal (s.data.getD i ' ') * (if i % 2 = 0 then 1 else 3)) % 10) % 10))
    ∧ isValidISBN "9780140449136" = true ∧ isValidISBN "9780140449137" = false := by
  refine ⟨fun s => ?_, by decide, by decide⟩
  rw [isValidISBN]
  by_cases h1 : s.data.length = 13 ∧ s.data.all Char.isDigit = true
  · rw [if_neg (not_not_intro h1)]
    by_cases h2 : s.data.take 3 = ['9', '7', '8'] ∨ s.data.take 3 = ['9', '7', '9']
    · rw [if_neg (not_not_intro h2), decide_eq_true_eq]
      have hs : isbnWeightedSum (s.data.map digitVal)
          = ∑ i in Finset.range 12,
              digitVal (s.data.getD i ' ') * (if i % 2 = 0 then 1 else 3) := by
        rw [isbnWeightedSum_eq]
        exact Finset.sum_congr rfl fun i _ => by rw [getD_map_digitVal]
      rw [hs, getD_map_digitVal]
      have hd : ∀ c ∈ s.data, c.isDigit = true := by
        intro c hc
        exact List.all_eq_true.mp h1.2 c hc
      exact ⟨fun hc => ⟨h1.1, hd, h2, hc⟩, fun hP => hP.2.2.2⟩
    · rw [if_pos h2]
      exact iff_of_false (by simp) (fun hP => h2 hP.2.2.1)
  · rw [if_pos h1]
    refine iff_of_false (by simp) (fun hP => h1 ⟨hP.1, ?_⟩)
    exact List.all_eq_true.mpr hP.2.1

theorem isValidISBN_witness : isValidISBN "9780140449136" = true :=
  isValidISBN_spec.2.1

/-! ## Data model (`src/types.ts`) -/

/-- `ReadingStatus` from `src/types.ts`. -/
inductive ReadingStatus
  | unread
  | reading
  | read
  | wishlist
deriving DecidableEq

/-- `Book` from `src/types.ts`: the client-side record stored in the
library.  `rating` is `number | null` (1-5 stars) modelled as `Option Nat`;
the optional string fields are `Option String`. -/
structure Book where
  isbn : String
  title : String
  authors : List String
  coverUrl : String
  genre : List String
  dateAdded : String
  description : String
  pageCount : Nat
  source : Option String
  readingStatus : ReadingStatus
  rating : Option Nat
  notes : String
  favorite : Bool
  publisher : Option String
  publishYear : Option Nat
  language : Option String
deriving DecidableEq

/-! ## Library store operations (`src/App.tsx`) -/

/-- `addBook` from `src/App.tsx`: no-op when a record with the same isbn is
already present, otherwise prepends the new record. -/
def addBook (books : List Book) (newBook : Book) : List Book :=
  if books.any (fun book => book.isbn = newBook.isbn) then books
  else newBook :: books

/-- `deleteBook` from `src/App.tsx`: removes records matching the isbn. -/
def deleteBook (books : List Book) (isbn : String) : List Book :=
  books.filter (fun book => ¬ book.isbn = isbn)

/-- `updateBook` from `src/App.tsx`: replaces the record whose isbn matches
the updated record, leaving the rest unchanged. -/
def updateBook (books : List Book) (updatedBook : Book) : List Book :=
  books.map (fun book => if book.isbn = updatedBook.isbn then updatedBook else book)

/-- Number of records in the store carrying a given isbn. -/
def countISBN (books : List Book) (isbn : String) : Nat :=
  (books.filter (fun book => book.isbn = isbn)).length

/-! ## Record edits made by the UI

Every update call site passes a record derived from the stored one by a
spread that changes a single field: `onUpdate({ ...book, favorite: ... })`
(`BookCard.tsx`, `BookListItem.tsx`, `BookDetailView.tsx`),
`{ ...book, readingStatus: status }`, `{ ...editedBook, rating: newRating }`,
and notes edits in `BookDetailView.tsx`. -/

def setStatus (b : Book) (st : ReadingStatus) : Book := { b with readingStatus := st }

def setRating (b : Book) (r : Option Nat) : Book := { b with rating := r }

def setNotes (b : Book) (n : String) : Book := { b with notes := n }

def setFavorite (b : Book) (f : Bool) : Book := { b with favorite := f }

/-! ## JS truthiness helpers

TypeScript `a || b` returns `b` when `a` is absent (`undefined`), the empty
string, or `0`; `a ?? b` returns `b` only when `a` is null/undefined. -/

/-- `a || d` for an optional string `a`. -/
def jsOrStr : Option String → String → String
  | none, d => d
  | some s, d => if s = "" then d else s

/-- `a || d` for a present string `a` (empty string is falsy). -/
def jsStrOr (s d : String) : String := if s = "" then d else s

/-- `a || d` for an optional number `a` (`0` is falsy). -/
def jsOrNat : Option Nat → Nat → Nat
  | none, d => d
  | some n, d => if n = 0 then d else n

/-- `a || d` for a present number `a`. -/
def jsNatOr (n d : Nat) : Nat := if n = 0 then d else n

/-- `a || d` for an optional list `a`: a present array is always truthy,
even when empty. -/
def jsOrList : Option (List String) → List String → List String
  | none, d => d
  | some l, _ => l

/-- JS string interpolation of a possibly-undefined value:
`` `${x}` `` renders `undefined` when `x` is absent. -/
def jsRender : Option String → String
  | none => "undefined"
  | some s => s

/-! ## Client-side record creation
(`src/types.ts` `createBook`, `src/services/bookService.ts` `fetchBookByISBN`) -/

/-- The argument of `createBook`: `Omit<Book, 'readingStatus' | 'rating' |
'notes' | 'favorite'>`. -/
structure BookDraft where
  isbn : String
  title : String
  authors : List String
  coverUrl : String
  genre : List String
  dateAdded : String
  description : String
  pageCount : Nat
  source : Option String
  publisher : Option String
  publishYear : Option Nat
  language : Option String
deriving DecidableEq

/-- `createBook` from `src/types.ts`: fills the V2 fields with defaults. -/
def createBook (p : BookDraft) : Book :=
  { isbn := p.isbn, title := p.title, authors := p.authors, coverUrl := p.coverUrl,
    genre := p.genre, dateAdded := p.dateAdded, description := p.description,
    pageCount := p.pageCount, source := p.source, readingStatus := .unread,
    rating := none, notes := "", favorite := false, publisher := p.publisher,
    publishYear := p.publishYear, language := p.language }

/-- The JSON body returned by `/api/book`, as read by the client
`fetchBookByISBN`: every field the client dereferences, optional when the
client guards it with `||`. -/
structure ApiBookResponse where
  isbn : String
  title : String
  authors : Option (List String)
  genre : Option (List String)
  description : Option String
  coverUrl : Option String
  pageCount : Option Nat
  publisher : Option String
  publishYear : Option Nat
  language : Option String
deriving DecidableEq

/-- The deterministic cover endpoint keyed by ISBN:
`https://covers.openlibrary.org/b/isbn/${isbn}-L.jpg`. -/
def coverUrlFor (isbn : String) : String :=
  "https://covers.openlibrary.org/b/isbn/" ++ isbn ++ "-L.jpg"

/-- Client `fetchBookByISBN` (the `/api/book`-backed service): a 404 or a
network error yields `null`; otherwise the response is turned into a
`Book` via `createBook`, with `dateAdded` set to the current time (the
`now` argument models `new Date().toISOString()`). -/
def fetchBookByISBN (isbn : String) (now : String) (resp : Option ApiBookResponse) :
    Option Book :=
  match resp with
  | none => none
  | some data => some (createBook
      { isbn := data.isbn, title := data.title,
        authors := jsOrList data.authors ["Unknown Author"],
        genre := jsOrList data.genre ["Uncategorized"],
        description := jsOrStr data.description "",
        coverUrl := jsOrStr data.coverUrl (coverUrlFor isbn),
        dateAdded := now,
        pageCount := jsOrNat data.pageCount 0,
        source := none,
        publisher := data.publisher, publishYear := data.publishYear,
        language := data.language })

/-! ## Scan debouncer (`src/components/ScannerView.tsx`, `processBarcode`)

JS callbacks run on a single thread, so the synchronous prefix of
`processBarcode` — everything up to the `await fetchBookByISBN` — executes
atomically.  `processBarcode` below is that prefix as a step function;
`lookupSettled` is the `finally` block that runs when the awaited lookup
completes (successfully or not); the two `setTimeout` callbacks are the
`CooldownFire` functions.  A step reports the effects it performs:
whether the resolver was invoked, the toast surfaced, and the duration of
any cooldown timer it scheduled.  The code holds no queue: a decode that
hits an early `return` is gone. -/

inductive ToastType
  | success
  | error
  | loading
deriving DecidableEq

structure ScanState where
  isProcessing : Bool
  lastScanned : String
deriving DecidableEq

structure ScanStep where
  state : ScanState
  resolverInvoked : Bool
  toast : Option (String × ToastType)
  cooldownMs : Option Nat
deriving DecidableEq

/-- The synchronous prefix of `processBarcode`
(`src/components/ScannerView.tsx` lines 49-73). -/
def processBarcode (existingISBNs : List String) (s : ScanState) (isbn : String) :
    ScanStep :=
  if s.isProcessing = true ∨ s.lastScanned = isbn then
    { state := s, resolverInvoked := false, toast := none, cooldownMs := none }
  else if isbn ∈ existingISBNs then
    { state := { s with lastScanned := isbn }, resolverInvoked := false,
      toast := some ("📚 Already in your shelf", .error), cooldownMs := some 3000 }
  else if ¬ isValidISBN isbn = true then
    { state := s, resolverInvoked := false, toast := none, cooldownMs := none }
  else
    { state := { isProcessing := true, lastScanned := isbn }, resolverInvoked := true,
      toast := some ("🔍 Looking up ISBN: " ++ isbn, .loading), cooldownMs := none }

/-- The continuation of `processBarcode` after `await fetchBookByISBN`
settles (lines 75-99): a result toast is shown (the `catch` branch's error
toast is analogous), and the `finally` block schedules the 1000 ms
cooldown timer.  The Processing flag stays set until that timer fires. -/
def lookupSettled (s : ScanState) (result : Option Book) : ScanStep :=
  { state := s, resolverInvoked := false,
    toast := some (match result with
      | some b => ("✅ Added: " ++ b.title, ToastType.success)
      | none => ("❌ Could not find book", ToastType.error)),
    cooldownMs := some 1000 }

/-- Callback of the timer scheduled on the duplicate path (lines 60-62):
clears only the last-scanned marker. -/
def duplicateCooldownFire (s : ScanState) : ScanState :=
  { s with lastScanned := "" }

/-- Callback of the timer scheduled in `finally` (lines 95-98): clears the
Processing flag and the last-scanned marker. -/
def processingCooldownFire (_s : ScanState) : ScanState :=
  { isProcessing := false, lastScanned := "" }

/-! ## Concrete sample records used by witnesses -/

def bookEx : Book :=
  { isbn := "9780140449136", title := "Meditations", authors := ["Marcus Aurelius"],
    coverUrl := coverUrlFor "9780140449136", genre := ["Philosophy"],
    dateAdded := "2024-01-01T00:00:00.000Z", description := "A classic.",
    pageCount := 304, source := none, readingStatus := .unread, rating := none,
    notes := "", favorite := false, publisher := none, publishYear := none,
    language := none }

def apiRespEx : ApiBookResponse :=
  { isbn := "9780140449136", title := "Meditations", authors := some ["Marcus Aurelius"],
    genre := some ["Philosophy"], description := some "A classic.",
    coverUrl := none, pageCount := some 304, publisher := none, publishYear := none,
    language := none }

def bookFromApiEx : Book :=
  (fetchBookByISBN "9780140449136" "2024-01-01T00:00:00.000Z" (some apiRespEx)).getD bookEx

/-! ## Store lemmas -/

lemma countISBN_pos_iff (books : List Book) (i : String) :
    0 < countISBN books i ↔ (books.any fun book => book.isbn = i) = true := by
  simp [countISBN, List.length_pos, List.any_eq_true]

lemma countISBN_cons_self (books : List Book) (r : Book) :
    countISBN (r :: books) r.isbn = countISBN books r.isbn + 1 := by
  simp [countISBN, List.filter_cons]

/-- C5: `addBook` is a no-op when the isbn is already present, otherwise
prepends the record (newest first); from any store that satisfies the
isbn-uniqueness invariant (at most one record per isbn), adding the same
record twice leaves exactly one record with that isbn. -/
theorem addBook_dedup_spec :
    (∀ (books : List Book) (r : Book),
        (∃ b ∈ books, b.isbn = r.isbn) → addBook books r = books)
    ∧ (∀ (books : List Book) (r : Book),
        (∀ b ∈ books, b.isbn ≠ r.isbn) → addBook books r = r :: books)
    ∧ (∀ (books : List Book) (r : Book),
        countISBN books r.isbn ≤ 1 →
          countISBN (addBook (addBook books r) r) r.isbn = 1) := by
  have hadd_pos : ∀ (books : List Book) (r : Book),
      (books.any fun book => book.isbn = r.isbn) = true → addBook books r = books := by
    intro books r h
    rw [addBook, if_pos h]
  have hadd_neg : ∀ (books : List Book) (r : Book),
      ¬ (books.any fun book => book.isbn = r.isbn) = true → addBook books r = r :: books := by
    intro books r h
    rw [addBook, if_neg h]
  refine ⟨?_, ?_, ?_⟩
  · intro books r h
    apply hadd_pos
    obtain ⟨b, hb, hi⟩ := h
    simp [List.any_eq_true]
    exact ⟨b, hb, hi⟩
  · intro books r h
    apply hadd_neg
    simp [List.any_eq_true]
    exact h
  · intro books r h
    by_cases hmem : (books.any fun book => book.isbn = r.isbn) = true
    · rw [hadd_pos books r hmem, hadd_pos books r hmem]
      have hpos : 0 < countISBN books r.isbn := (countISBN_pos_iff _ _).mpr hmem
      omega
    · rw [hadd_neg books r hmem]
      have hcons : (((r :: books).any fun book => book.isbn = r.isbn)) = true := by
        simp [List.any_cons]
      rw [hadd_pos _ _ hcons, countISBN_cons_self]
      have hz : ¬ 0 < countISBN books r.isbn := by
        rw [countISBN_pos_iff]
        exact hmem
      omega

theorem addBook_dedup_witness :
    addBook [bookEx] bookEx = [bookEx]
    ∧ addBook [] bookEx = [bookEx]
    ∧ countISBN (addBook (addBook [] bookEx) bookEx) bookEx.isbn = 1 :=
  ⟨addBook_dedup_spec.1 [bookEx] bookEx ⟨bookEx, by decide, rfl⟩,
   addBook_dedup_spec.2.1 [] bookEx (by decide),
   addBook_dedup_spec.2.2 [] bookEx (by decide)⟩

lemma updateBook_map_dateAdded (books : List Book) (u : Book)
    (hu : ∀ x ∈ books, x.isbn = u.isbn → x.dateAdded = u.dateAdded) :
    (updateBook books u).map Book.dateAdded = books.map Book.dateAdded := by
  rw [updateBook, List.map_map]
  apply List.map_congr_left
  intro x hx
  by_cases hxi : x.isbn = u.isbn
  · simp [Function.comp, hxi, hu x hx hxi]
  · simp [Function.comp, hxi]

/-- C7: a record's `dateAdded` is fixed at creation (the client resolver
stamps it with the current time) and none of the UI's store updates —
status, rating, notes or favorite edits, which spread the stored record
and change only that one field — alters any record's `dateAdded`. -/
theorem dateAdded_immutable_spec :
    (∀ (isbn now : String) (resp : Option ApiBookResponse) (b : Book),
        fetchBookByISBN isbn now resp = some b → b.dateAdded = now)
    ∧ (∀ (books : List Book) (b : Book),
        (∀ x ∈ books, x.isbn = b.isbn → x.dateAdded = b.dateAdded) →
        ∀ (st : ReadingStatus) (r : Option Nat) (n : String) (f : Bool),
          (updateBook books (setStatus b st)).map Book.dateAdded = books.map Book.dateAdded
          ∧ (updateBook books (setRating b r)).map Book.dateAdded = books.map Book.dateAdded
          ∧ (updateBook books (setNotes b n)).map Book.dateAdded = books.map Book.dateAdded
          ∧ (updateBook books (setFavorite b f)).map Book.dateAdded
              = books.map Book.dateAdded) := by
  constructor
  · intro isbn now resp b h
    cases resp with
    | none => simp [fetchBookByISBN] at h
    | some data =>
      simp only [fetchBookByISBN, Option.some.injEq] at h
      rw [← h]
      rfl
  · intro books b hb st r n f
    refine ⟨?_, ?_, ?_, ?_⟩ <;>
      exact updateBook_map_dateAdded books _ (fun x hx hxi => hb x hx hxi)

theorem dateAdded_immutable_witness :
    bookFromApiEx.dateAdded = "2024-01-01T00:00:00.000Z"
    ∧ (updateBook [bookEx] (setFavorite bookEx true)).map Book.dateAdded
        = [bookEx].map Book.dateAdded :=
  ⟨dateAdded_immutable_spec.1 "9780140449136" "2024-01-01T00:00:00.000Z"
      (some apiRespEx) bookFromApiEx rfl,
   (dateAdded_immutable_spec.2 [bookEx] bookEx (by decide)
      ReadingStatus.unread none "" true).2.2.2⟩

/-- C2: within one scanning session at most one lookup is in flight — a
second decode of the same valid, not-yet-owned ISBN arriving before the
first lookup settles invokes the resolver zero further times (exactly once
in total), and any decode arriving while the Processing flag is set is
dropped with no state change and no queued work. -/
theorem debouncer_single_flight_spec :
    (∀ (existing : List String) (s : ScanState) (isbn : String),
        s.isProcessing = false → s.lastScanned ≠ isbn → isbn ∉ existing →
        isValidISBN isbn = true →
        (processBarcode existing s isbn).resolverInvoked = true
        ∧ processBarcode existing (processBarcode existing s isbn).state isbn =
            { state := (processBarcode existing s isbn).state, resolverInvoked := false,
              toast := none, cooldownMs := none })
    ∧ (∀ (existing : List String) (s : ScanState) (code : String),
        s.isProcessing = true →
        processBarcode existing s code =
          { state := s, resolverInvoked := false, toast := none, cooldownMs := none }) := by
  constructor
  · intro existing s isbn h1 h2 h3 h4
    have hstep : processBarcode existing s isbn =
        { state := { isProcessing := true, lastScanned := isbn }, resolverInvoked := true,
          toast := some ("🔍 Looking up ISBN: " ++ isbn, .loading), cooldownMs := none } := by
      rw [processBarcode]
      rw [if_neg (by simp [h1, h2]), if_neg h3, if_neg (by simp [h4])]
    refine ⟨by rw [hstep], ?_⟩
    rw [hstep]
    rw [processBarcode, if_pos (Or.inl rfl)]
  · intro existing s code h1
    rw [processBarcode, if_pos (Or.inl h1)]

theorem debouncer_single_flight_witness :
    (processBarcode [] { isProcessing := false, lastScanned := "" }
        "9780140449136").resolverInvoked = true
    ∧ processBarcode []
        (processBarcode [] { isProcessing := false, lastScanned := "" }
          "9780140449136").state "9780140449136" =
        { state := (processBarcode [] { isProcessing := false, lastScanned := "" }
            "9780140449136").state,
          resolverInvoked := false, toast := none, cooldownMs := none } :=
  debouncer_single_flight_spec.1 [] { isProcessing := false, lastScanned := "" }
    "9780140449136" rfl (by decide) (by decide) (by decide)

/-- C6 counterexample: the cooldown scheduled on the already-in-library
path lasts 3000 ms while the cooldown scheduled after a lookup settles
lasts 1000 ms, so the duplicate path does **not** apply the same cooldown
duration that is used after processing a lookup. -/
theorem scanner_duplicate_cooldown_counterexample :
    (processBarcode ["9780140449136"] { isProcessing := false, lastScanned := "" }
        "9780140449136").cooldownMs = some 3000
    ∧ (lookupSettled { isProcessing := true, lastScanned := "9780140449136" }
        none).cooldownMs = some 1000
    ∧ (3000 : Nat) ≠ 1000 := by
  refine ⟨?_, rfl, by decide⟩
  rw [processBarcode, if_neg (by decide), if_pos (by decide)]

/-- C6 (amended): a decode of an already-owned ISBN never enters
Processing, never invokes the resolver, surfaces the distinct
already-in-library signal and applies a cooldown before the code is
accepted again — but that cooldown lasts 3000 ms, not the 1000 ms used
after processing a lookup; while it is pending, repeats of the same code
are dropped. -/
theorem scanner_duplicate_cooldown_spec :
    ∀ (existing : List String) (s : ScanState) (isbn : String),
      s.isProcessing = false → s.lastScanned ≠ isbn → isbn ∈ existing →
      (processBarcode existing s isbn).state.isProcessing = false
      ∧ (processBarcode existing s isbn).resolverInvoked = false
      ∧ (processBarcode existing s isbn).toast
          = some ("📚 Already in your shelf", ToastType.error)
      ∧ (processBarcode existing s isbn).cooldownMs = some 3000
      ∧ processBarcode existing (processBarcode existing s isbn).state isbn =
          { state := (processBarcode existing s isbn).state, resolverInvoked := false,
            toast := none, cooldownMs := none }
      ∧ (∀ (s' : ScanState) (r : Option Book), (lookupSettled s' r).cooldownMs = some 1000) := by
  intro existing s isbn h1 h2 h3
  have hstep : processBarcode existing s isbn =
      { state := { s with lastScanned := isbn }, resolverInvoked := false,
        toast := some ("📚 Already in your shelf", .error), cooldownMs := some 3000 } := by
    rw [processBarcode]
    rw [if_neg (by simp [h1, h2]), if_pos h3]
  refine ⟨by rw [hstep, h1], by rw [hstep], by rw [hstep], by rw [hstep], ?_, fun s' r => rfl⟩
  rw [hstep]
  rw [processBarcode, if_pos (Or.inr rfl)]

/-! ## Server-side resolver (`api/book.ts`)

`tryOpenLibrary` fetches the Open Library JSON for the ISBN and catches
every error as `null`; `tryLLM` posts a prompt to each model in turn and
skips models whose response is not ok or whose content fails to parse;
the handler tries Open Library first, falls back to the LLM, and returns
404 when both yield nothing.  The raw HTTP/JSON layer is modelled as
oracle inputs: the primary fetch outcome (payload, key absent, or thrown
error) and a list of per-model LLM attempt outcomes. -/

/-- The Open Library payload fields that `tryOpenLibrary` dereferences,
projected to the values the code reads (`authors.map(a => a.name)`,
`subjects.map(s => s.name)`, `excerpts[0].text`, `publishers[0].name`,
`parseInt(publish_date)`, `languages[0].key`, the series-name variants). -/
structure RawOLBook where
  title : Option String
  authorNames : Option (List String)
  subjectNames : Option (List String)
  notes : Option String
  excerptText : Option String
  numberOfPages : Option Nat
  publisherName : Option String
  publishYearParsed : Option Nat
  languageKey : Option String
  seriesName : Option String
deriving DecidableEq

/-- The `BookData` interface of `api/book.ts`. -/
structure BookData where
  title : String
  authors : List String
  genre : List String
  description : String
  pageCount : Nat
  publisher : Option String
  publishYear : Option Nat
  language : Option String
  series : Option String
  seriesOrder : Option String
deriving DecidableEq

/-- Outcome of the raw fetch against the primary source: a payload under
the `ISBN:` key, no such key, or a thrown network/parse error. -/
inductive SourceOutcome (α : Type)
  | found (a : α)
  | missing
  | netError
deriving DecidableEq

/-- The normalization `tryOpenLibrary` applies to a payload it found. -/
def olNormalize (bd : RawOLBook) : BookData :=
  { title := jsOrStr bd.title "Unknown Title",
    authors := jsOrList bd.authorNames ["Unknown Author"],
    genre := jsOrList (bd.subjectNames.map (fun l => l.take 5)) ["Uncategorized"],
    description := jsOrStr bd.notes (jsOrStr bd.excerptText
      (jsRender bd.title ++ " by " ++ jsOrStr (bd.authorNames.bind List.head?) "Unknown")),
    pageCount := jsOrNat bd.numberOfPages 0,
    publisher := bd.publisherName,
    publishYear := bd.publishYearParsed,
    language := bd.languageKey.map (fun k => k.replace "/languages/" ""),
    series := bd.seriesName,
    seriesOrder := none }

/-- `tryOpenLibrary` from `api/book.ts`: a thrown error or an absent key
yields `null`; otherwise the normalized payload. -/
def tryOpenLibrary (outcome : SourceOutcome RawOLBook) : Option BookData :=
  match outcome with
  | .netError => none
  | .missing => none
  | .found bd => some (olNormalize bd)

/-- First successful per-model attempt (`return JSON.parse(content)` inside
the loop; failures `continue`). -/
def firstSome : List (Option BookData) → Option BookData
  | [] => none
  | none :: rest => firstSome rest
  | some bd :: _ => some bd

/-- `tryLLM` from `api/book.ts`: throws when `OPENROUTER_API_KEY` is not
configured; otherwise tries the models in order — an attempt is `none`
when its response was not ok, its fetch threw, or its content failed to
parse — and returns the first parsed payload, or `null`. -/
def tryLLM (keyConfigured : Bool) (attempts : List (Option BookData)) :
    Except Unit (Option BookData) :=
  if keyConfigured = false then Except.error ()
  else Except.ok (firstSome attempts)

/-- The record the handler returns: `{...bookData, isbn, coverUrl, source}`. -/
structure ResolvedBook where
  data : BookData
  isbn : String
  coverUrl : String
  source : String
deriving DecidableEq

inductive BookHandlerResult
  | ok (r : ResolvedBook)
  | badRequest
  | notFound
  | serverError
deriving DecidableEq

/-- The isbn query check `/^\d{10,13}$/`. -/
def isbnQueryOk (isbn : String) : Bool :=
  decide (10 ≤ isbn.data.length ∧ isbn.data.length ≤ 13 ∧ isbn.data.all Char.isDigit = true)

/-- The source of `resultSource`: projection of the record's source tag. -/
def resultSource : BookHandlerResult → Option String
  | .ok r => some r.source
  | _ => none

/-- The GET/POST body of `handler` in `api/book.ts`: validate the isbn,
try Open Library, fall back to the LLM, 404 when both yield nothing, 500
when `tryLLM` throws.  The second component records whether the LLM
fallback was invoked. -/
def bookHandler (isbn : String) (primary : SourceOutcome RawOLBook)
    (keyConfigured : Bool) (llmAttempts : List (Option BookData)) :
    BookHandlerResult × Bool :=
  if isbnQueryOk isbn = false then (.badRequest, false)
  else
    match tryOpenLibrary primary with
    | some bd =>
      (.ok { data := bd, isbn := isbn, coverUrl := coverUrlFor isbn,
             source := "openlibrary" }, false)
    | none =>
      match tryLLM keyConfigured llmAttempts with
      | .error _ => (.serverError, true)
      | .ok none => (.notFound, true)
      | .ok (some bd) =>
        (.ok { data := bd, isbn := isbn, coverUrl := coverUrlFor isbn,
               source := "llm" }, true)

def rawEx : RawOLBook :=
  { title := some "Meditations", authorNames := some ["Marcus Aurelius"],
    subjectNames := none, notes := none, excerptText := none,
    numberOfPages := some 304, publisherName := none, publishYearParsed := none,
    languageKey := none, seriesName := none }

/-- C3: the resolver queries the primary source first (when it yields data
the LLM is never invoked), returns 404 NotFound with no record when both
sources yield nothing, and a network/parse error — at the primary fetch or
at an LLM attempt — is treated as that source producing nothing rather
than as a fatal error. -/
theorem resolver_fallback_spec :
    (∀ (isbn : String) (raw : RawOLBook) (key : Bool) (attempts : List (Option BookData)),
        isbnQueryOk isbn = true →
        (bookHandler isbn (.found raw) key attempts).2 = false
        ∧ bookHandler isbn (.found raw) key attempts =
            (.ok { data := olNormalize raw, isbn := isbn, coverUrl := coverUrlFor isbn,
                   source := "openlibrary" }, false))
    ∧ (∀ (isbn : String) (primary : SourceOutcome RawOLBook)
          (attempts : List (Option BookData)),
        isbnQueryOk isbn = true →
        tryOpenLibrary primary = none → firstSome attempts = none →
        bookHandler isbn primary true attempts = (.notFound, true))
    ∧ (∀ (isbn : String) (key : Bool) (attempts : List (Option BookData)),
        bookHandler isbn .netError key attempts = bookHandler isbn .missing key attempts)
    ∧ (∀ (key : Bool) (attempts : List (Option BookData)),
        tryLLM key (none :: attempts) = tryLLM key attempts) := by
  refine ⟨?_, ?_, ?_, ?_⟩
  · intro isbn raw key attempts h
    rw [bookHandler, if_neg (by simp [h])]
    exact ⟨rfl, rfl⟩
  · intro isbn primary attempts h hprim hllm
    rw [bookHandler, if_neg (by simp [h]), hprim]
    simp [tryLLM, hllm]
  · intro isbn key attempts
    rfl
  · intro key attempts
    cases key with
    | false => rfl
    | true => simp [tryLLM, firstSome]

theorem resolver_fallback_witness :
    (bookHandler "9780140449136" (.found rawEx) true []).2 = false
    ∧ bookHandler "9780140449136" .missing true [] = (.notFound, true) :=
  ⟨(resolver_fallback_spec.1 "9780140449136" rawEx true [] (by decide)).1,
   resolver_fallback_spec.2.1 "9780140449136" .missing [] (by decide) rfl rfl⟩

/-- C4 counterexample: when the primary source returns data, the record's
source field is "openlibrary", not "primary" as the claim states. -/
theorem resolver_normalize_counterexample :
    resultSource (bookHandler "9780140449136" (.found rawEx) true []).1
      = some "openlibrary"
    ∧ some "openlibrary" ≠ some "primary" := by
  exact ⟨rfl, by decide⟩

/-- C4 (amended): when the primary source returns data the handler
returns its normalized record — title defaulted to "Unknown Title" when
missing, authors to ["Unknown Author"] when missing, genre to
["Uncategorized"] when missing and capped at 5 entries, a description
synthesized from title and author when the source provides none, a cover
URL derived from the cover-image endpoint keyed by the ISBN — with its
source field equal to "openlibrary" (the identifier of the primary
source), not "primary". -/
theorem resolver_normalize_spec :
    ∀ (isbn : String) (raw : RawOLBook) (key : Bool) (attempts : List (Option BookData)),
      isbnQueryOk isbn = true →
      bookHandler isbn (.found raw) key attempts =
        (.ok { data := olNormalize raw, isbn := isbn, coverUrl := coverUrlFor isbn,
               source := "openlibrary" }, false)
      ∧ (raw.title = none → (olNormalize raw).title = "Unknown Title")
      ∧ (raw.authorNames = none → (olNormalize raw).authors = ["Unknown Author"])
      ∧ (raw.subjectNames = none → (olNormalize raw).genre = ["Uncategorized"])
      ∧ (olNormalize raw).genre.length ≤ 5
      ∧ (raw.notes = none → raw.excerptText = none →
          (olNormalize raw).description =
            jsRender raw.title ++ " by "
              ++ jsOrStr (raw.authorNames.bind List.head?) "Unknown")
      ∧ "openlibrary" ≠ "primary" := by
  intro isbn raw key attempts h
  refine ⟨?_, ?_, ?_, ?_, ?_, ?_, by decide⟩
  · rw [bookHandler, if_neg (by simp [h])]
    rfl
  · intro ht
    simp [olNormalize, ht, jsOrStr]
  · intro ha
    simp [olNormalize, ha, jsOrList]
  · intro hg
    simp [olNormalize, hg, jsOrList]
  · cases hg : raw.subjectNames with
    | none => simp [olNormalize, hg, jsOrList]
    | some l =>
      simp only [olNormalize, hg, Option.map_some, jsOrList]
      simp [List.length_take_le 5 l]
  · intro hn he
    simp [olNormalize, hn, he, jsOrStr]

theorem resolver_normalize_witness :
    bookHandler "9780140449136" (SourceOutcome.found rawEx) true [] =
      (.ok { data := olNormalize rawEx, isbn := "9780140449136",
             coverUrl := coverUrlFor "9780140449136", source := "openlibrary" }, false)
    ∧ (olNormalize rawEx).genre = ["Uncategorized"] :=
  ⟨(resolver_normalize_spec "9780140449136" rawEx true [] (by decide)).1,
   (resolver_normalize_spec "9780140449136" rawEx true [] (by decide)).2.2.2.1 rfl⟩

theorem scanner_duplicate_cooldown_witness :
    (processBarcode ["9780140449136"] { isProcessing := false, lastScanned := "" }
        "9780140449136").cooldownMs = some 3000
    ∧ (processBarcode ["9780140449136"] { isProcessing := false, lastScanned := "" }
        "9780140449136").resolverInvoked = false :=
  ⟨(scanner_duplicate_cooldown_spec ["9780140449136"]
      { isProcessing := false, lastScanned := "" } "9780140449136"
      rfl (by decide) (by decide)).2.2.2.1,
   (scanner_duplicate_cooldown_spec ["9780140449136"]
      { isProcessing := false, lastScanned := "" } "9780140449136"
      rfl (by decide) (by decide)).2.1⟩

/-! ## JSON export / import round trip
(`src/utils/export.ts` `exportToJSON`, `SettingsView.handleImport`,
`src/hooks/useLocalStorage.ts`, `src/types.ts` `migrateBook`) -/

/-- `migrateBook` from `src/types.ts`: rebuilds the record field by field
with JS `||`/`??` defaults.  It does not copy `source`, so that field is
dropped; `now` models the `new Date().toISOString()` fallback for a falsy
`dateAdded`. -/
def migrateBook (now : String) (b : Book) : Book :=
  { isbn := jsStrOr b.isbn "",
    title := jsStrOr b.title "Unknown",
    authors := b.authors,
    coverUrl := jsStrOr b.coverUrl "",
    genre := b.genre,
    dateAdded := jsStrOr b.dateAdded now,
    description := jsStrOr b.description "",
    pageCount := jsNatOr b.pageCount 0,
    readingStatus := b.readingStatus,
    rating := b.rating,
    notes := jsStrOr b.notes "",
    favorite := b.favorite || false,
    publisher := b.publisher,
    publishYear := b.publishYear,
    language := b.language,
    source := none }

/-- `exportToJSON` writes `JSON.stringify(books, null, 2)`.
`JSON.parse` of that text restores the same record values — JSON
serialization of these string/number/boolean/array/optional fields is
faithful, and the file-download mechanics are a library concern — so the
data content carried by the export is the record list itself. -/
def exportToJSON (books : List Book) : List Book := books

/-- The import path: `handleImport` parses the file, stores the array
verbatim under `my-shelf-books`, and reloads; on load `useLocalStorage`
maps every stored record through `migrateBook`. -/
def importFromJSON (now : String) (data : List Book) : List Book :=
  data.map (migrateBook now)

/-- `fromJSON(toJSON(books))`: export followed by the import path. -/
def exportImportRoundTrip (now : String) (books : List Book) : List Book :=
  importFromJSON now (exportToJSON books)

lemma jsStrOr_empty_default (s : String) : jsStrOr s "" = s := by
  rw [jsStrOr]
  split
  · simp_all
  · rfl

lemma jsNatOr_zero_default (n : Nat) : jsNatOr n 0 = n := by
  rw [jsNatOr]
  split
  · simp_all
  · rfl

lemma jsStrOr_of_ne (s d : String) (h : s ≠ "") : jsStrOr s d = s := by
  rw [jsStrOr, if_neg h]

lemma migrateBook_eq_self (now : String) (b : Book) (hs : b.source = none)
    (ht : b.title ≠ "") (hd : b.dateAdded ≠ "") : migrateBook now b = b := by
  simp only [migrateBook, jsStrOr_empty_default, jsNatOr_zero_default, Bool.or_false,
    jsStrOr_of_ne _ _ ht, jsStrOr_of_ne _ _ hd, ← hs]

def bookWithSourceEx : Book := { bookEx with source := some "openlibrary" }

/-- C8 counterexample: the round trip is not the identity — `migrateBook`
does not copy the `source` field, so a record carrying one comes back
changed. -/
theorem export_roundtrip_counterexample :
    exportImportRoundTrip "2025-01-01T00:00:00.000Z" [bookWithSourceEx]
      ≠ [bookWithSourceEx] := by
  decide

/-- C8 (amended): importing the JSON export yields each record passed
through `migrateBook`, which drops the optional `source` field and
re-defaults a falsy title or dateAdded; field-for-field equality
`fromJSON(toJSON(books)) = books` holds for every non-empty list of
records that carry no `source` field and have non-empty title and
dateAdded. -/
theorem export_roundtrip_spec :
    ∀ (now : String) (books : List Book),
      (∀ b ∈ books, b.source = none ∧ b.title ≠ "" ∧ b.dateAdded ≠ "") →
      exportImportRoundTrip now books = books := by
  intro now books h
  rw [exportImportRoundTrip, importFromJSON, exportToJSON]
  induction books with
  | nil => rfl
  | cons a t ih =>
    have ha := h a (List.mem_cons_self a t)
    rw [List.map_cons, migrateBook_eq_self now a ha.1 ha.2.1 ha.2.2,
      ih (fun b hb => h b (List.mem_cons_of_mem a hb))]

theorem export_roundtrip_witness :
    exportImportRoundTrip "2025-01-01T00:00:00.000Z" [bookEx] = [bookEx] :=
  export_roundtrip_spec "2025-01-01T00:00:00.000Z" [bookEx] (by decide)

/-! ## CSV export (`src/utils/export.ts`, `exportToCSV`) -/

/-- `.replace(/"/g, '""')`. -/
def escQuotes (s : String) : String :=
  String.mk (s.data.flatMap (fun c => if c = '"' then ['"', '"'] else [c]))

/-- Wrap a field in double quotes. -/
def quoteWrap (s : String) : String := "\"" ++ s ++ "\""

def csvHeader : String := "isbn,title,authors,genre,dateAdded,description,pageCount,coverUrl"

/-- One data row of `exportToCSV`: title and description are
quote-escaped and quoted; authors and genre are joined with `", "` and
quoted (without escaping); the remaining fields are raw; the cells are
joined with commas. -/
def csvRow (b : Book) : String :=
  String.intercalate ","
    [b.isbn, quoteWrap (escQuotes b.title),
     quoteWrap (String.intercalate ", " b.authors),
     quoteWrap (String.intercalate ", " b.genre),
     b.dateAdded, quoteWrap (escQuotes b.description),
     toString b.pageCount, b.coverUrl]

/-- `exportToCSV`: returns early (no file) for an empty library; otherwise
the header row followed by one row per book, joined with newlines. -/
def exportToCSV (books : List Book) : Option String :=
  if books = [] then none
  else some (String.intercalate "\n"
    (books.foldl (fun rows b => rows ++ [csvRow b]) [csvHeader]))

/-- Modelled from the claim's words, for comparison with `csvRow`: a row
in which every quoted field (title, authors, genre, description) has its
embedded double quotes escaped. -/
def csvRowClaimed (b : Book) : String :=
  String.intercalate ","
    [b.isbn, quoteWrap (escQuotes b.title),
     quoteWrap (escQuotes (String.intercalate ", " b.authors)),
     quoteWrap (escQuotes (String.intercalate ", " b.genre)),
     b.dateAdded, quoteWrap (escQuotes b.description),
     toString b.pageCount, b.coverUrl]

def bookQuoteEx : Book := { bookEx with authors := ["Joe \"Q\" Public"] }

/-- C9 counterexample: for a book whose author name contains a double
quote, the produced row leaves the quote inside the quoted authors field
unescaped, so it differs from the row the claim describes (all quoted
fields escaped). -/
theorem csv_escape_counterexample :
    exportToCSV [bookQuoteEx] = some (csvHeader ++ "\n" ++ csvRow bookQuoteEx)
    ∧ csvRow bookQuoteEx ≠ csvRowClaimed bookQuoteEx := by
  constructor
  · rfl
  · decide

lemma foldl_push_rows (books : List Book) (acc : List String) :
    books.foldl (fun rows b => rows ++ [csvRow b]) acc = acc ++ books.map csvRow := by
  induction books generalizing acc with
  | nil => simp
  | cons a t ih => simp [ih]

/-- C9 (amended): for every non-empty book list, `exportToCSV` produces
the header row `isbn,title,authors,genre,dateAdded,description,pageCount,coverUrl`
followed by one row per book in which authors and genre are comma-joined
and quoted, and embedded double quotes are escaped in the quoted title
and description fields only — not in the quoted authors/genre fields. -/
theorem csv_export_spec :
    ∀ books : List Book, books ≠ [] →
      exportToCSV books = some (String.intercalate "\n" (csvHeader :: books.map csvRow))
      ∧ csvHeader = "isbn,title,authors,genre,dateAdded,description,pageCount,coverUrl"
      ∧ ∀ b : Book, csvRow b = String.intercalate ","
          [b.isbn, quoteWrap (escQuotes b.title),
           quoteWrap (String.intercalate ", " b.authors),
           quoteWrap (String.intercalate ", " b.genre),
           b.dateAdded, quoteWrap (escQuotes b.description),
           toString b.pageCount, b.coverUrl] := by
  intro books h
  refine ⟨?_, rfl, fun b => rfl⟩
  rw [exportToCSV, if_neg h, foldl_push_rows]
  rfl

theorem csv_export_witness :
    exportToCSV [bookEx]
      = some (String.intercalate "\n" (csvHeader :: [bookEx].map csvRow)) :=
  (csv_export_spec [bookEx] (by decide)).1

/-! ## Shared library server (`api/library.ts`) -/

inductive HttpMethod
  | get
  | post
  | put
  | delete
  | options
deriving DecidableEq

/-- `handler` from `api/library.ts`, as a transition on the stored library:
OPTIONS short-circuits, unauthorized requests leave the store untouched
(401), GET reads, POST prepends unless the isbn already exists, DELETE
overwrites the whole store with `[]`.  The result pairs the new stored
library with the HTTP status. -/
def libraryHandler (authorized : Bool) (method : HttpMethod) (body : Option Book)
    (lib : List Book) : List Book × Nat :=
  match method with
  | .options => (lib, 200)
  | m =>
    if authorized = false then (lib, 401)
    else
      match m with
      | .get => (lib, 200)
      | .post =>
        match body with
        | none => (lib, 400)
        | some book =>
          if book.isbn = "" then (lib, 400)
          else if lib.any (fun item => item.isbn = book.isbn) then (lib, 200)
          else (book :: lib, 201)
      | .delete => ([], 200)
      | _ => (lib, 405)

/-- `deleteBookRemote` from `src/services/libraryService.ts` sends
`DELETE /api/library/${isbn}` with no body; the handler never reads the
isbn path segment. -/
def deleteBookRemoteServed (authorized : Bool) (_isbn : String) (lib : List Book) :
    List Book × Nat :=
  libraryHandler authorized .delete none lib

/-- C10: an authorized DELETE replaces the entire stored library with the
empty array, so the client's per-isbn `deleteBookRemote`, served by this
handler, removes every record — including those whose isbn differs from
the requested one; and no transition of the handler removes a single
record (each leaves the store unchanged, empties it, or prepends one
record). -/
theorem delete_clears_all_spec :
    (∀ (isbn : String) (lib : List Book),
        (deleteBookRemoteServed true isbn lib).1 = []
        ∧ ∀ b ∈ lib, b ∉ (deleteBookRemoteServed true isbn lib).1)
    ∧ (∀ (authorized : Bool) (method : HttpMethod) (body : Option Book) (lib : List Book),
        (libraryHandler authorized method body lib).1 = lib
        ∨ (libraryHandler authorized method body lib).1 = []
        ∨ ∃ b, (libraryHandler authorized method body lib).1 = b :: lib) := by
  constructor
  · intro isbn lib
    exact ⟨rfl, fun b _ hmem => by simp [deleteBookRemoteServed, libraryHandler] at hmem⟩
  · intro authorized method body lib
    cases method with
    | options => exact Or.inl rfl
    | get =>
      cases authorized with
      | false => exact Or.inl rfl
      | true => exact Or.inl rfl
    | put =>
      cases authorized with
      | false => exact Or.inl rfl
      | true => exact Or.inl rfl
    | delete =>
      cases authorized with
      | false => exact Or.inl rfl
      | true => exact Or.inr (Or.inl rfl)
    | post =>
      cases authorized with
      | false => exact Or.inl rfl
      | true =>
        cases body with
        | none => exact Or.inl rfl
        | some book =>
          by_cases hb : book.isbn = ""
          · left
            simp [libraryHandler, hb]
          · by_cases hmem : (lib.any fun item => item.isbn = book.isbn) = true
            · left
              simp [libraryHandler, hb, hmem]
            · right
              right
              refine ⟨book, ?_⟩
              simp [libraryHandler, hb, hmem]

theorem delete_clears_all_witness :
    (deleteBookRemoteServed true "1234567890" [bookEx]).1 = []
    ∧ bookEx ∉ (deleteBookRemoteServed true "1234567890" [bookEx]).1 :=
  ⟨(delete_clears_all_spec.1 "1234567890" [bookEx]).1,
   (delete_clears_all_spec.1 "1234567890" [bookEx]).2 bookEx (by decide)⟩

end MyShelf
